import Mathlib

/-!
Verification of the Spring default path manager (`rts/Sim/Path/Default/PathManager.cpp`).

The C++ code is shallowly embedded: `float` values become exact rationals,
`std::map<unsigned int, MultiPath*>` becomes an association list, the three
search engines (`CPathFinder` / the two `CPathEstimator`s) are abstracted as an
oracle consumed one call at a time, and every externally observable action
(unblocking or re-blocking the calling entity, issuing a search) is recorded in
an explicit event trace used only for specification purposes.
-/

namespace Spring

/-- A 3-component vector (`float3`), with exact rationals standing in for
`float` coordinates. -/
structure float3 where
  x : ℚ
  y : ℚ
  z : ℚ
deriving DecidableEq, Repr

/-- `ZeroVector`, the all-zero `float3`. -/
def ZeroVector : float3 := ⟨0, 0, 0⟩

/-- `int2`: a pair of integer grid coordinates. -/
structure int2 where
  x : ℤ
  y : ℤ
deriving DecidableEq, Repr

/-- `float3::SqDistance2D`: squared planar (x/z) distance. -/
def sqDist2D (a b : float3) : ℚ := (a.x - b.x) ^ 2 + (a.z - b.z) ^ 2

/-- `float3::SqLength2D`: squared planar (x/z) length. -/
def sqLength2D (a : float3) : ℚ := a.x ^ 2 + a.z ^ 2

/-- Componentwise `float3` subtraction. -/
def f3sub (a b : float3) : float3 := ⟨a.x - b.x, a.y - b.y, a.z - b.z⟩

/-- A C-style cast of a floating-point value to `int`: truncation toward zero
(`Int.tdiv` of the reduced numerator by the denominator). -/
def cint (q : ℚ) : ℤ := q.num.tdiv q.den

/-- `IPath::SearchResult`: the closed outcome taxonomy of every search call. -/
inductive SearchResult where
  | Ok
  | GoalOutOfRange
  | CantGetCloser
  | Error
deriving DecidableEq, Repr

/-- `IPath::Path`: one resolution tier of a multipath.  The waypoint sequence is
stored traversal-order reversed, so the C++ `back()` is the `List` tail element
(kept in the same order as the `std::vector`). -/
structure Path where
  path : List float3
  squares : List int2
  pathGoal : float3
deriving DecidableEq, Repr

/-- A freshly default-constructed `IPath::Path`. -/
def emptyIPath : Path := ⟨[], [], ZeroVector⟩

/-- `CPathManager::MultiPath`: the hierarchical path record.  The calling
entity is reduced to an optional identifier (only its presence and
block/unblock transitions are observable here), and `constraintDisabled`
records whether `DisableConstraint(true)` has been applied to the record's
stored goal definition (`peDef`). -/
structure MultiPath where
  searchResult : SearchResult
  finalGoal : float3
  caller : Option Nat
  maxResPath : Path
  medResPath : Path
  lowResPath : Path
  constraintDisabled : Bool
deriving DecidableEq, Repr

/-- The record as built by `new MultiPath(startPos, pfDef, moveDef)` plus the
two field assignments that immediately follow it in `RequestPath`. -/
def initMultiPath (goalPos : float3) (caller : Option Nat) : MultiPath :=
  ⟨SearchResult.Error, goalPos, caller, emptyIPath, emptyIPath, emptyIPath, false⟩

/-- The number of values of a C `unsigned int`; the handle counter and the
registry keys wrap modulo this. -/
def uintCard : Nat := 2 ^ 32

/-- The path-handle registry `std::map<unsigned int, MultiPath*>` as an
association list, together with the handle counter `nextPathID`. -/
structure PMState where
  nextPathID : Nat
  pathMap : List (Nat × MultiPath)
deriving DecidableEq, Repr

/-- `pathMap.find`: look a handle up in the registry. -/
def pmFind (pathID : Nat) : List (Nat × MultiPath) → Option MultiPath
  | [] => none
  | (k, mp) :: rest => if k = pathID then some mp else pmFind pathID rest

/-- `pathMap[id] = path`: insert under a key, replacing any existing entry. -/
def pmInsert (pathID : Nat) (mp : MultiPath) : List (Nat × MultiPath) → List (Nat × MultiPath)
  | [] => [(pathID, mp)]
  | (k, v) :: rest =>
    if k = pathID then (pathID, mp) :: rest else (k, v) :: pmInsert pathID mp rest

/-- `pathMap.erase(id)`. -/
def pmErase (pathID : Nat) (m : List (Nat × MultiPath)) : List (Nat × MultiPath) :=
  m.filter (fun e => e.1 ≠ pathID)

/-- `CPathManager::Store`: `pathMap[++nextPathID] = path; return nextPathID;`
with the `unsigned int` counter wrapping modulo `2^32`. -/
def store (mp : MultiPath) (st : PMState) : Nat × PMState :=
  let id := (st.nextPathID + 1) % uintCard
  (id, ⟨id, pmInsert id mp st.pathMap⟩)

/-- `CPathManager::DeletePath`: handle 0 and unknown handles are silent
no-ops; otherwise the record is removed and released. -/
def deletePath (pathID : Nat) (st : PMState) : PMState :=
  if pathID = 0 then st
  else
    match pmFind pathID st.pathMap with
    | none => st
    | some _ => ⟨st.nextPathID, pmErase pathID st.pathMap⟩

/-- Modelled from the spec: `PathConstants.h` is not part of the excerpt.  The
spec only requires a three-band distance classification with
`DETAILED_DISTANCE < ESTIMATE_DISTANCE` and per-band refinement thresholds;
the engine's concrete values are used. -/
def SQUARE_SIZE : ℚ := 8

/-- Modelled from the spec: the fine-band threshold from `PathConstants.h`. -/
def DETAILED_DISTANCE : ℚ := 25

/-- Modelled from the spec: the medium-band threshold from `PathConstants.h`. -/
def ESTIMATE_DISTANCE : ℚ := 55

/-- Modelled from the spec: the fine-tier refinement threshold from
`PathConstants.h`. -/
def MIN_DETAILED_DISTANCE : ℚ := 12

/-- Modelled from the spec: the medium-tier refinement threshold from
`PathConstants.h`. -/
def MIN_ESTIMATE_DISTANCE : ℚ := 40

/-- Which search engine a `GetPath` call went to. -/
inductive Engine where
  | maxResPF
  | medResPE
  | lowResPE
deriving DecidableEq, Repr

/-- The externally observable actions of the path manager, recorded as a
specification-level trace: block-state toggles on the calling entity and
search-engine invocations (tagged with the constraint state of the goal
definition handed to the engine). -/
inductive PMEvent where
  | unblock
  | block
  | search (engine : Engine) (constraintDisabled : Bool)
deriving DecidableEq, Repr

/-- The result of one `GetPath` call: an outcome plus the tier path the engine
wrote into its output argument.  A `SearchOracle` abstracts the three engines,
consumed one call at a time via a call counter. -/
def SearchOracle : Type := Nat → SearchResult × Path

/-- The `while (!path.empty() && path.back().SqDistance2D(pos) < sqThresh)
pop_back();` trimming loop shared by both refinement operators. -/
def trimTail (pos : float3) (sqThresh : ℚ) (l : List float3) : List float3 :=
  (l.reverse.dropWhile (fun w => decide (sqDist2D w pos < sqThresh))).reverse

/-- `CPathManager::LowRes2MedRes`: refine the head of the coarse tier into a
medium-resolution sub-path.  Returns the updated record, the advanced oracle
counter and the emitted search event. -/
def lowRes2MedRes (oracle : SearchOracle) (k : Nat) (mp : MultiPath) (startPos : float3) :
    MultiPath × Nat × List PMEvent :=
  if mp.lowResPath.path.isEmpty then (mp, k, [])
  else
    let lp0 := mp.lowResPath.path.dropLast
    let lp := trimTail startPos ((ESTIMATE_DISTANCE * SQUARE_SIZE) ^ 2) lp0
    let goalPos := if lp.isEmpty then mp.lowResPath.pathGoal else lp.getLastD ZeroVector
    let s := oracle k
    let flag := if lp.isEmpty then mp.constraintDisabled else false
    let newMed :=
      if s.1 = SearchResult.CantGetCloser ∨ s.1 = SearchResult.Error then
        { s.2 with pathGoal := goalPos }
      else s.2
    ({ mp with lowResPath := { mp.lowResPath with path := lp }, medResPath := newMed },
      k + 1, [PMEvent.search Engine.medResPE flag])

/-- `CPathManager::MedRes2MaxRes`: refine the head of the medium tier into a
fine-resolution sub-path. -/
def medRes2MaxRes (oracle : SearchOracle) (k : Nat) (mp : MultiPath) (startPos : float3) :
    MultiPath × Nat × List PMEvent :=
  if mp.medResPath.path.isEmpty then (mp, k, [])
  else
    let mp0 := mp.medResPath.path.dropLast
    let mpth := trimTail startPos ((DETAILED_DISTANCE * SQUARE_SIZE) ^ 2) mp0
    let goalPos := if mpth.isEmpty then mp.medResPath.pathGoal else mpth.getLastD ZeroVector
    let s := oracle k
    let flag :=
      if mpth.isEmpty && mp.lowResPath.path.isEmpty then mp.constraintDisabled else false
    let newMax :=
      if s.1 = SearchResult.CantGetCloser ∨ s.1 = SearchResult.Error then
        { s.2 with pathGoal := goalPos }
      else s.2
    ({ mp with medResPath := { mp.medResPath with path := mpth }, maxResPath := newMax },
      k + 1, [PMEvent.search Engine.maxResPF flag])

/-- Accumulator for the tier-selection phase of `RequestPath`: outcome so far,
partially filled record, oracle counter and the search events emitted. -/
structure BandAcc where
  result : SearchResult
  mp : MultiPath
  k : Nat
  events : List PMEvent
deriving DecidableEq, Repr

/-- The tier-selection and fallback cascade of `CPathManager::RequestPath`
(the `if (goalDist2D < DETAILED_DISTANCE) ... else if ... else ...` block).
`PM_UNCONSTRAINED_MAXRES_FALLBACK_SEARCH` is 0 and the other two fallback
macros are 1, so the constraint is disabled only in the medium and long
bands. -/
def bandSearch (oracle : SearchOracle) (k : Nat) (goalDist2D sqGoalRadius : ℚ)
    (startPos goalPos : float3) (mp0 : MultiPath) : BandAcc :=
  if goalDist2D < DETAILED_DISTANCE then
    let s1 := oracle k
    let a1 : BandAcc :=
      ⟨s1.1, { mp0 with maxResPath := s1.2 }, k + 1, [PMEvent.search Engine.maxResPF false]⟩
    let a2 : BandAcc :=
      if a1.result ≠ SearchResult.Ok then
        let s2 := oracle a1.k
        ⟨s2.1, { a1.mp with medResPath := s2.2 }, a1.k + 1,
          a1.events ++ [PMEvent.search Engine.medResPE false]⟩
      else a1
    if a2.result ≠ SearchResult.Ok then
      let s3 := oracle a2.k
      ⟨s3.1, { a2.mp with lowResPath := s3.2 }, a2.k + 1,
        a2.events ++ [PMEvent.search Engine.lowResPE false]⟩
    else a2
  else if goalDist2D < ESTIMATE_DISTANCE then
    let s1 := oracle k
    let a1 : BandAcc :=
      ⟨s1.1, { mp0 with medResPath := s1.2 }, k + 1, [PMEvent.search Engine.medResPE false]⟩
    let a2 : BandAcc :=
      if a1.result = SearchResult.CantGetCloser ∧
          sqLength2D (f3sub startPos goalPos) > sqGoalRadius then
        let s2 := oracle a1.k
        ⟨s2.1, { a1.mp with maxResPath := s2.2 }, a1.k + 1,
          a1.events ++ [PMEvent.search Engine.maxResPF false]⟩
      else a1
    let a3 : BandAcc := { a2 with mp := { a2.mp with constraintDisabled := true } }
    if a3.result ≠ SearchResult.Ok then
      let s3 := oracle a3.k
      ⟨s3.1, { a3.mp with medResPath := s3.2 }, a3.k + 1,
        a3.events ++ [PMEvent.search Engine.medResPE true]⟩
    else a3
  else
    let s1 := oracle k
    let a1 : BandAcc :=
      ⟨s1.1, { mp0 with lowResPath := s1.2 }, k + 1, [PMEvent.search Engine.lowResPE false]⟩
    let a2 : BandAcc :=
      if a1.result = SearchResult.CantGetCloser ∧
          sqLength2D (f3sub startPos goalPos) > sqGoalRadius then
        let s2 := oracle a1.k
        let b : BandAcc :=
          ⟨s2.1, { a1.mp with medResPath := s2.2 }, a1.k + 1,
            a1.events ++ [PMEvent.search Engine.medResPE false]⟩
        if b.result = SearchResult.CantGetCloser then
          let s3 := oracle b.k
          ⟨s3.1, { b.mp with maxResPath := s3.2 }, b.k + 1,
            b.events ++ [PMEvent.search Engine.maxResPF false]⟩
        else b
      else a1
    let a3 : BandAcc := { a2 with mp := { a2.mp with constraintDisabled := true } }
    if a3.result ≠ SearchResult.Ok then
      let s4 := oracle a3.k
      ⟨s4.1, { a3.mp with lowResPath := s4.2 }, a3.k + 1,
        a3.events ++ [PMEvent.search Engine.lowResPE true]⟩
    else a3

/-- The outcome of one `RequestPath` call: returned handle, updated registry
state, advanced oracle counter, the event trace, and (as specification
instrumentation) the final `IPath::SearchResult` the call computed. -/
structure RPOut where
  pathID : Nat
  st : PMState
  k : Nat
  events : List PMEvent
  result : SearchResult
deriving DecidableEq, Repr

/-- The inner `CPathManager::RequestPath` overload: run the tier-selection
cascade, then on any non-`Error` outcome either stitch the path head into
finer detail (`LowRes2MedRes` then `MedRes2MaxRes`) or, on `CantGetCloser`,
install the dummy start waypoint if the fine tier is empty, and store the
record; on `Error` release the record and return handle 0.  The caller, if
present, is unblocked before and re-blocked after. -/
def requestPathCore (oracle : SearchOracle) (k : Nat) (goalDist2D sqGoalRadius : ℚ)
    (startPos goalPos : float3) (caller : Option Nat) (st : PMState) : RPOut :=
  let ev0 : List PMEvent := if caller.isSome then [PMEvent.unblock] else []
  let evB : List PMEvent := if caller.isSome then [PMEvent.block] else []
  let b := bandSearch oracle k goalDist2D sqGoalRadius startPos goalPos
    (initMultiPath goalPos caller)
  if b.result ≠ SearchResult.Error then
    let post :
        MultiPath × Nat × List PMEvent :=
      if b.result ≠ SearchResult.CantGetCloser then
        let l1 := lowRes2MedRes oracle b.k b.mp startPos
        let l2 := medRes2MaxRes oracle l1.2.1 l1.1 startPos
        (l2.1, l2.2.1, l1.2.2 ++ l2.2.2)
      else
        let mp' :=
          if b.mp.maxResPath.path.isEmpty then
            { b.mp with maxResPath :=
              { b.mp.maxResPath with
                path := b.mp.maxResPath.path ++ [startPos],
                squares := b.mp.maxResPath.squares ++
                  [⟨cint (startPos.x / SQUARE_SIZE), cint (startPos.z / SQUARE_SIZE)⟩] } }
          else b.mp
        (mp', b.k, [])
    let stored := { post.1 with searchResult := b.result }
    let s := store stored st
    ⟨s.1, s.2, post.2.1, ev0 ++ b.events ++ post.2.2 ++ evB, b.result⟩
  else
    ⟨0, st, b.k, ev0 ++ b.events ++ evB, b.result⟩

/-- Modelled from the spec: `float3::ClampInBounds` is not part of the excerpt.
The spec says start and goal are "clamped into the map's bounds"; the planar
coordinates are clamped into `[0, maxxpos]` × `[0, maxzpos]` and the height is
untouched. -/
def clampInBounds (maxxpos maxzpos : ℚ) (p : float3) : float3 :=
  ⟨max 0 (min maxxpos p.x), p.y, max 0 (min maxzpos p.z)⟩

/-- Modelled from the spec: `CRangedGoalWithCircularConstraint::Heuristic` is
not part of the excerpt; the spec calls it a planar heuristic distance between
start and goal.  Modelled as the planar Chebyshev distance in grid squares. -/
def heuristic2D (sp gp : float3) : ℚ :=
  max |gp.x - sp.x| |gp.z - sp.z| / SQUARE_SIZE

/-- The outer `CPathManager::RequestPath` overload: clamp both endpoints into
the map, build the ranged-goal definition from the clamped positions
(`sqGoalRadius = goalRadius²`), compute the heuristic goal distance (planar
heuristic plus the height difference divided by `SQUARE_SIZE`), and delegate
to the inner overload. -/
def requestPathOuter (oracle : SearchOracle) (k : Nat) (maxxpos maxzpos : ℚ)
    (startPos goalPos : float3) (goalRadius : ℚ) (caller : Option Nat) (st : PMState) : RPOut :=
  let sp := clampInBounds maxxpos maxzpos startPos
  let gp := clampInBounds maxxpos maxzpos goalPos
  let goalDist2D := heuristic2D sp gp + |gp.y - sp.y| / SQUARE_SIZE
  requestPathCore oracle k goalDist2D (goalRadius ^ 2) sp gp caller st

/-- The sentinel "no waypoint" position `float3(-1.0f, 0.0f, -1.0f)`. -/
def noPathPoint : float3 := ⟨-1, 0, -1⟩

/-- The `NextWayPoint` trigger "the detailed path needs bettering": the medium
tier is non-empty and its tail waypoint is within the fine refinement
threshold of the caller position, or the fine tier holds at most 2
waypoints. -/
def medNeedsRefine (mp : MultiPath) (callerPos : float3) : Bool :=
  !mp.medResPath.path.isEmpty &&
    (decide (sqDist2D (mp.medResPath.path.getLastD ZeroVector) callerPos <
        (MIN_DETAILED_DISTANCE * SQUARE_SIZE) ^ 2) ||
      decide (mp.maxResPath.path.length ≤ 2))

/-- The nested trigger "the estimated path also needs bettering": the coarse
tier is non-empty and its tail waypoint is within the medium refinement
threshold of the caller position, or the medium tier holds at most 2
waypoints. -/
def lowNeedsRefine (mp : MultiPath) (callerPos : float3) : Bool :=
  !mp.lowResPath.path.isEmpty &&
    (decide (sqDist2D (mp.lowResPath.path.getLastD ZeroVector) callerPos <
        (MIN_ESTIMATE_DISTANCE * SQUARE_SIZE) ^ 2) ||
      decide (mp.medResPath.path.length ≤ 2))

/-- The cross-tier refinement block of `NextWayPoint` (lines between the
look-up and the waypoint-popping loop): when the detailed path needs
bettering, possibly run `LowRes2MedRes`, then — with the record's caller
unblocked — `MedRes2MaxRes`, then re-block the caller. -/
def nwpRefine (oracle : SearchOracle) (k : Nat) (mp : MultiPath) (callerPos : float3) :
    MultiPath × Nat × List PMEvent :=
  if medNeedsRefine mp callerPos then
    let l1 :=
      if lowNeedsRefine mp callerPos then lowRes2MedRes oracle k mp callerPos
      else (mp, k, [])
    let ublk : List PMEvent := if l1.1.caller.isSome then [PMEvent.unblock] else []
    let l2 := medRes2MaxRes oracle l1.2.1 l1.1 callerPos
    let blk : List PMEvent := if l2.1.caller.isSome then [PMEvent.block] else []
    (l2.1, l2.2.1, l1.2.2 ++ ublk ++ l2.2.2 ++ blk)
  else (mp, k, [])

/-- The waypoint-popping `do { ... } while` loop of `NextWayPoint`, on the
reversed fine-tier list (so the `std::vector` `back()` is the list head):
pop waypoints while they lie within `minDistance` of the caller and differ
from the fine tier's path goal; `none` means the tier was exhausted. -/
def popLoopRev (callerPos : float3) (minDistance : ℚ) (pathGoal : float3) :
    List float3 → Option (float3 × List float3)
  | [] => none
  | w :: rest =>
    if sqDist2D callerPos w < minDistance ^ 2 ∧ w ≠ pathGoal then
      popLoopRev callerPos minDistance pathGoal rest
    else some (w, rest)

/-- The popping loop on the fine tier in its stored order. -/
def popLoop (callerPos : float3) (minDistance : ℚ) (pathGoal : float3) (l : List float3) :
    Option (float3 × List float3) :=
  match popLoopRev callerPos minDistance pathGoal l.reverse with
  | none => none
  | some (w, restRev) => some (w, restRev.reverse)

/-- The outcome of one `NextWayPoint` call: the returned position, the updated
registry state, the advanced oracle counter and the event trace. -/
structure NWPOut where
  waypoint : float3
  st : PMState
  k : Nat
  events : List PMEvent
deriving DecidableEq, Repr

/-- `CPathManager::NextWayPoint`, with the bounded retry recursion expressed
through a structural fuel argument.  The `numRetries > 4` guard limits the
recursion depth to at most 6 levels from any starting depth, so the wrapper's
fuel of 6 is never exhausted and the fuel-out branch is unreachable. -/
def nextWayPointAux (oracle : SearchOracle) : Nat → PMState → Nat → Nat → float3 → ℚ → Nat →
    NWPOut
  | 0, st, k, _, _, _, _ => ⟨noPathPoint, st, k, []⟩
  | fuel + 1, st, k, pathID, callerPos, minDistance, numRetries =>
    if pathID = 0 then ⟨noPathPoint, st, k, []⟩
    else if 4 < numRetries then ⟨noPathPoint, st, k, []⟩
    else
      match pmFind pathID st.pathMap with
      | none => ⟨noPathPoint, st, k, []⟩
      | some mp =>
        let cp :=
          if callerPos = ZeroVector ∧ ¬mp.maxResPath.path.isEmpty then
            mp.maxResPath.path.getLastD ZeroVector
          else callerPos
        let rf := nwpRefine oracle k mp cp
        let mp1 := rf.1
        match popLoop cp minDistance mp1.maxResPath.pathGoal mp1.maxResPath.path with
        | some (w, rest) =>
          let mp2 := { mp1 with maxResPath := { mp1.maxResPath with path := rest } }
          ⟨{ w with y := 0 }, ⟨st.nextPathID, pmInsert pathID mp2 st.pathMap⟩, rf.2.1, rf.2.2⟩
        | none =>
          let mp2 := { mp1 with maxResPath := { mp1.maxResPath with path := [] } }
          let st2 : PMState := ⟨st.nextPathID, pmInsert pathID mp2 st.pathMap⟩
          if mp2.lowResPath.path.isEmpty && mp2.medResPath.path.isEmpty then
            let w :=
              if mp2.searchResult = SearchResult.Ok then mp2.finalGoal else noPathPoint
            ⟨{ w with y := 0 }, st2, rf.2.1, rf.2.2⟩
          else
            let r := nextWayPointAux oracle fuel st2 rf.2.1 pathID cp minDistance
              (numRetries + 1)
            ⟨{ r.waypoint with y := 0 }, r.st, r.k, rf.2.2 ++ r.events⟩

/-- `CPathManager::NextWayPoint`. -/
def nextWayPoint (oracle : SearchOracle) (st : PMState) (k pathID : Nat)
    (callerPos : float3) (minDistance : ℚ) (numRetries : Nat) : NWPOut :=
  nextWayPointAux oracle 6 st k pathID callerPos minDistance numRetries

/-- `CPathManager::GetDetailedPathSquares`: the fine tier's grid squares in
traversal order (the stored order reversed); empty for an unknown handle. -/
def getDetailedPathSquares (pathID : Nat) (st : PMState) : List int2 :=
  match pmFind pathID st.pathMap with
  | none => []
  | some mp => mp.maxResPath.squares.reverse

/-- The per-cell heat amounts computed by the `UpdatePath` loop before the
implicit cast to `int`: the `j`-th traversed cell (counted from the path's
start) gets `i * scale * heatProduced` with `i = n - j` and `scale = 1/n`. -/
def updatePathHeatAmounts (n : Nat) (heatProduced : ℚ) : List ℚ :=
  (List.range n).map (fun j => ((n - j : Nat) : ℚ) * (1 / (n : ℚ)) * heatProduced)

/-- `CPathManager::UpdatePath`: the list of `(cell, value)` heat deposits made
through `SetHeatOnSquare` (whose `value` parameter is an `int`, hence the
truncating cast).  `heatMapping` and `heatProduced` are the owner's movement
class fields. -/
def updatePath (heatMapping : Bool) (heatProduced : ℚ) (pathID : Nat) (st : PMState) :
    List (int2 × ℤ) :=
  if pathID = 0 then []
  else if !heatMapping then []
  else
    let points := getDetailedPathSquares pathID st
    if points.isEmpty then []
    else points.zip ((updatePathHeatAmounts points.length heatProduced).map cint)

/-- Modelled from the spec: `PathNodeStateBuffer` is not part of the excerpt.
The spec describes a dense per-cell extra-cost overlay in a synced and an
unsynced variant; each is modelled as a cost function over cell coordinates. -/
structure NodeStateBuffer where
  extraCostSynced : Nat → Nat → ℚ
  extraCostUnsynced : Nat → Nat → ℚ

/-- Modelled from the spec: `PathNodeStateBuffer::SetNodeExtraCost` writes one
cell of the chosen overlay variant. -/
def NodeStateBuffer.setExtraCost (b : NodeStateBuffer) (x z : Nat) (cost : ℚ)
    (synced : Bool) : NodeStateBuffer :=
  if synced then
    { b with extraCostSynced := fun a c => if a = x ∧ c = z then cost else b.extraCostSynced a c }
  else
    { b with extraCostUnsynced :=
        fun a c => if a = x ∧ c = z then cost else b.extraCostUnsynced a c }

/-- Modelled from the spec: `PathNodeStateBuffer::GetNodeExtraCost` reads one
cell of the chosen overlay variant. -/
def NodeStateBuffer.getExtraCost (b : NodeStateBuffer) (x z : Nat) (synced : Bool) : ℚ :=
  if synced then b.extraCostSynced x z else b.extraCostUnsynced x z

/-- The node-state buffers of the three search engines
(`maxResPF`, `medResPE`, `lowResPE`). -/
structure PMBuffers where
  maxResBuf : NodeStateBuffer
  medResBuf : NodeStateBuffer
  lowResBuf : NodeStateBuffer

/-- `CPathManager::SetNodeExtraCost`: bounds-check against `gs->mapx` /
`gs->mapy`, then write the same cost into all three tiers' buffers. -/
def setNodeExtraCost (mapx mapy x z : Nat) (cost : ℚ) (synced : Bool) (bufs : PMBuffers) :
    Bool × PMBuffers :=
  if mapx ≤ x then (false, bufs)
  else if mapy ≤ z then (false, bufs)
  else
    (true,
      ⟨bufs.maxResBuf.setExtraCost x z cost synced,
        bufs.medResBuf.setExtraCost x z cost synced,
        bufs.lowResBuf.setExtraCost x z cost synced⟩)

/-- `CPathManager::GetNodeExtraCost`: 0 outside the grid, otherwise the
fine-tier buffer's value. -/
def getNodeExtraCost (mapx mapy x z : Nat) (synced : Bool) (bufs : PMBuffers) : ℚ :=
  if mapx ≤ x then 0
  else if mapy ≤ z then 0
  else bufs.maxResBuf.getExtraCost x z synced

/-- Iterate `Store`, returning the issued handles in call order. -/
def storeSeq (mp : MultiPath) : Nat → PMState → List Nat × PMState
  | 0, st => ([], st)
  | n + 1, st =>
    let s := store mp st
    let r := storeSeq mp n s.2
    (s.1 :: r.1, r.2)

/-! ### Registry lemmas -/

theorem pmFind_pmInsert_self (i : Nat) (v : MultiPath) (m : List (Nat × MultiPath)) :
    pmFind i (pmInsert i v m) = some v := by
  induction m with
  | nil => simp [pmInsert, pmFind]
  | cons hd tl ih =>
    obtain ⟨hk, hv⟩ := hd
    by_cases h : hk = i
    · simp [pmInsert, pmFind, h]
    · simp [pmInsert, pmFind, h, ih]

theorem pmFind_pmErase_self (i : Nat) (m : List (Nat × MultiPath)) :
    pmFind i (pmErase i m) = none := by
  induction m with
  | nil => simp [pmErase, pmFind]
  | cons hd tl ih =>
    obtain ⟨hk, hv⟩ := hd
    by_cases h : hk = i
    · simpa [pmErase, h] using ih
    · simpa [pmErase, pmFind, h] using ih

theorem pmFind_eq_none_of_keys_ne (i : Nat) (m : List (Nat × MultiPath))
    (h : ∀ p ∈ m, p.1 ≠ i) : pmFind i m = none := by
  induction m with
  | nil => rfl
  | cons hd tl ih =>
    have hhd : hd.1 ≠ i := h hd (List.mem_cons_self hd tl)
    obtain ⟨hk, hv⟩ := hd
    simp only [pmFind, if_neg hhd]
    exact ih (fun p hp => h p (List.mem_cons_of_mem _ hp))

theorem pmFind_deletePath (st : PMState) (pathID : Nat) (h : pathID ≠ 0) :
    pmFind pathID (deletePath pathID st).pathMap = none := by
  unfold deletePath
  rw [if_neg h]
  cases hf : pmFind pathID st.pathMap with
  | none => simpa using hf
  | some mp => simpa using pmFind_pmErase_self pathID st.pathMap

/-! ### C4: invalid inputs to NextWayPoint -/

/-- C4: a `NextWayPoint` call with handle 0, an unknown handle (in particular
one removed by `DeletePath`), or more than 4 retries returns the no-path
sentinel `(-1, 0, -1)` and leaves the registry untouched. -/
theorem nextWayPoint_invalid_inputs_sentinel (oracle : SearchOracle) (st : PMState)
    (k pathID : Nat) (callerPos : float3) (minDistance : ℚ) (numRetries : Nat)
    (h : pathID = 0 ∨ pmFind pathID st.pathMap = none ∨ 4 < numRetries) :
    nextWayPoint oracle st k pathID callerPos minDistance numRetries =
      ⟨noPathPoint, st, k, []⟩ ∧
    (pathID ≠ 0 → pmFind pathID (deletePath pathID st).pathMap = none) := by
  refine ⟨?_, fun h0 => pmFind_deletePath st pathID h0⟩
  show nextWayPointAux oracle (5 + 1) st k pathID callerPos minDistance numRetries = _
  rcases h with h | h | h
  · simp [nextWayPointAux, h]
  · simp only [nextWayPointAux, h]
    split <;> first | rfl | (split <;> rfl)
  · simp only [nextWayPointAux, if_pos h]
    split <;> rfl

/-- Witness for C4 at a concrete empty registry and handle 7. -/
theorem nextWayPoint_invalid_inputs_sentinel_witness :
    ((7 : Nat) = 0 ∨ pmFind 7 (PMState.mk 0 []).pathMap = none ∨ 4 < 0) ∧
    (nextWayPoint (fun _ => (SearchResult.Ok, emptyIPath)) ⟨0, []⟩ 0 7 ZeroVector 0 0 =
        ⟨noPathPoint, ⟨0, []⟩, 0, []⟩ ∧
      ((7 : Nat) ≠ 0 → pmFind 7 (deletePath 7 ⟨0, []⟩).pathMap = none)) :=
  ⟨Or.inr (Or.inl rfl),
    nextWayPoint_invalid_inputs_sentinel (fun _ => (SearchResult.Ok, emptyIPath))
      ⟨0, []⟩ 0 7 ZeroVector 0 0 (Or.inr (Or.inl rfl))⟩

/-! ### C10: zero caller position -/

theorem nextWayPointAux_zero_callerPos (oracle : SearchOracle) (fuel : Nat) (st : PMState)
    (k pathID : Nat) (mp : MultiPath) (minDistance : ℚ) (numRetries : Nat)
    (hf : pmFind pathID st.pathMap = some mp) (hne : mp.maxResPath.path ≠ []) :
    nextWayPointAux oracle (fuel + 1) st k pathID ZeroVector minDistance numRetries =
      nextWayPointAux oracle (fuel + 1) st k pathID
        (mp.maxResPath.path.getLastD ZeroVector) minDistance numRetries := by
  have hne' : mp.maxResPath.path.isEmpty = false := by
    cases hmp : mp.maxResPath.path with
    | nil => exact absurd hmp hne
    | cons a l => rfl
  simp only [nextWayPointAux, hf, hne']
  split
  · rfl
  · split
    · rfl
    · rw [if_pos (show True ∧ ¬(false : Bool) = true from ⟨trivial, by simp⟩), ite_self]

/-- C10: when `callerPos` is the zero vector and the fine tier is non-empty,
`NextWayPoint` behaves exactly as if it had been called with the fine tier's
tail waypoint as the caller position. -/
theorem nextWayPoint_zero_callerPos_uses_tail (oracle : SearchOracle) (st : PMState)
    (k pathID : Nat) (mp : MultiPath) (minDistance : ℚ) (numRetries : Nat)
    (hf : pmFind pathID st.pathMap = some mp) (hne : mp.maxResPath.path ≠ []) :
    nextWayPoint oracle st k pathID ZeroVector minDistance numRetries =
      nextWayPoint oracle st k pathID (mp.maxResPath.path.getLastD ZeroVector)
        minDistance numRetries :=
  nextWayPointAux_zero_callerPos oracle 5 st k pathID mp minDistance numRetries hf hne

/-- Concrete record used by several witnesses: a stored `Ok` record with a
two-waypoint fine tier. -/
def wMultiPath : MultiPath :=
  ⟨SearchResult.Ok, ⟨99, 0, 99⟩, none,
    ⟨[⟨40, 0, 40⟩, ⟨24, 0, 24⟩], [⟨5, 5⟩, ⟨3, 3⟩], ⟨24, 0, 24⟩⟩,
    emptyIPath, emptyIPath, false⟩

/-- A one-record registry holding `wMultiPath` under handle 1. -/
def wState : PMState := ⟨1, [(1, wMultiPath)]⟩

/-- A search oracle whose every call succeeds with a fixed one-waypoint path. -/
def wOracle : SearchOracle :=
  fun _ => (SearchResult.Ok, ⟨[⟨50, 0, 50⟩], [⟨6, 6⟩], ⟨50, 0, 50⟩⟩)

/-- Witness for C10: handle 1 of `wState` with a zero caller position. -/
theorem nextWayPoint_zero_callerPos_uses_tail_witness :
    pmFind 1 wState.pathMap = some wMultiPath ∧ wMultiPath.maxResPath.path ≠ [] ∧
    nextWayPoint wOracle wState 0 1 ZeroVector 0 0 =
      nextWayPoint wOracle wState 0 1 (wMultiPath.maxResPath.path.getLastD ZeroVector) 0 0 :=
  ⟨by decide, by decide,
    nextWayPoint_zero_callerPos_uses_tail wOracle wState 0 1 wMultiPath 0 0
      (by decide) (by decide)⟩

/-! ### C7: extra-cost overlay -/

/-- C7: `SetNodeExtraCost` rejects out-of-bounds coordinates (returning
`false` with every tier's overlay untouched, while `GetNodeExtraCost` returns
0 there) and otherwise returns `true` after writing the identical cost into
the node-state buffers of all three tiers. -/
theorem nodeExtraCost_bounds_and_propagation (mapx mapy x z : Nat) (cost : ℚ)
    (synced : Bool) (bufs : PMBuffers) :
    ((mapx ≤ x ∨ mapy ≤ z) →
      setNodeExtraCost mapx mapy x z cost synced bufs = (false, bufs) ∧
      getNodeExtraCost mapx mapy x z synced bufs = 0) ∧
    (x < mapx → z < mapy →
      (setNodeExtraCost mapx mapy x z cost synced bufs).1 = true ∧
      (setNodeExtraCost mapx mapy x z cost synced bufs).2.maxResBuf.getExtraCost x z synced
        = cost ∧
      (setNodeExtraCost mapx mapy x z cost synced bufs).2.medResBuf.getExtraCost x z synced
        = cost ∧
      (setNodeExtraCost mapx mapy x z cost synced bufs).2.lowResBuf.getExtraCost x z synced
        = cost) := by
  constructor
  · intro h
    unfold setNodeExtraCost getNodeExtraCost
    by_cases hx : mapx ≤ x
    · rw [if_pos hx, if_pos hx]; exact ⟨rfl, rfl⟩
    · have hz : mapy ≤ z := h.resolve_left hx
      rw [if_neg hx, if_neg hx, if_pos hz, if_pos hz]; exact ⟨rfl, rfl⟩
  · intro hx hz
    have hx' : ¬mapx ≤ x := not_le.mpr hx
    have hz' : ¬mapy ≤ z := not_le.mpr hz
    unfold setNodeExtraCost
    rw [if_neg hx', if_neg hz']
    refine ⟨rfl, ?_, ?_, ?_⟩ <;>
      · unfold NodeStateBuffer.setExtraCost NodeStateBuffer.getExtraCost
        cases synced <;> simp

/-- The all-zero node-state buffer (used by witnesses). -/
def wNodeBuf : NodeStateBuffer := ⟨fun _ _ => 0, fun _ _ => 0⟩

/-- All-zero buffers for the three tiers. -/
def wBuffers : PMBuffers := ⟨wNodeBuf, wNodeBuf, wNodeBuf⟩

/-- Witness for C7: an in-bounds write on a 4×4 grid propagates the cost to
all three tiers, and an out-of-bounds write on the same grid is rejected. -/
theorem nodeExtraCost_bounds_and_propagation_witness :
    ((4 ≤ (9 : Nat) ∨ 4 ≤ (2 : Nat)) →
      setNodeExtraCost 4 4 9 2 5 true wBuffers = (false, wBuffers) ∧
      getNodeExtraCost 4 4 9 2 true wBuffers = 0) ∧
    ((1 : Nat) < 4 → (2 : Nat) < 4 →
      (setNodeExtraCost 4 4 1 2 5 true wBuffers).1 = true ∧
      (setNodeExtraCost 4 4 1 2 5 true wBuffers).2.maxResBuf.getExtraCost 1 2 true = 5 ∧
      (setNodeExtraCost 4 4 1 2 5 true wBuffers).2.medResBuf.getExtraCost 1 2 true = 5 ∧
      (setNodeExtraCost 4 4 1 2 5 true wBuffers).2.lowResBuf.getExtraCost 1 2 true = 5) :=
  ⟨(nodeExtraCost_bounds_and_propagation 4 4 9 2 5 true wBuffers).1,
    (nodeExtraCost_bounds_and_propagation 4 4 1 2 5 true wBuffers).2⟩

/-! ### C9: clamping of request endpoints -/

theorem clampQ_idem (m x : ℚ) :
    max 0 (min m (max 0 (min m x))) = max 0 (min m x) := by
  simp only [max_def, min_def]
  split_ifs <;> first | rfl | linarith

theorem clampInBounds_idem (maxxpos maxzpos : ℚ) (p : float3) :
    clampInBounds maxxpos maxzpos (clampInBounds maxxpos maxzpos p) =
      clampInBounds maxxpos maxzpos p := by
  unfold clampInBounds
  simp only [float3.mk.injEq]
  exact ⟨clampQ_idem maxxpos p.x, trivial, clampQ_idem maxzpos p.z⟩

/-- C9: the outer `RequestPath` overload clamps both endpoints before building
the goal definition and searching, so a request behaves identically to one
issued from the clamped (nearest in-bounds) positions; the clamped positions
lie in the map's bounds, and in-bounds positions are left unchanged. -/
theorem requestPath_clamps_start_goal (oracle : SearchOracle) (k : Nat)
    (maxxpos maxzpos : ℚ) (startPos goalPos p : float3) (goalRadius : ℚ)
    (caller : Option Nat) (st : PMState) :
    requestPathOuter oracle k maxxpos maxzpos startPos goalPos goalRadius caller st =
      requestPathOuter oracle k maxxpos maxzpos
        (clampInBounds maxxpos maxzpos startPos) (clampInBounds maxxpos maxzpos goalPos)
        goalRadius caller st ∧
    (0 ≤ maxxpos → 0 ≤ maxzpos →
      0 ≤ (clampInBounds maxxpos maxzpos p).x ∧
      (clampInBounds maxxpos maxzpos p).x ≤ maxxpos ∧
      0 ≤ (clampInBounds maxxpos maxzpos p).z ∧
      (clampInBounds maxxpos maxzpos p).z ≤ maxzpos ∧
      (clampInBounds maxxpos maxzpos p).y = p.y) ∧
    (0 ≤ p.x → p.x ≤ maxxpos → 0 ≤ p.z → p.z ≤ maxzpos →
      clampInBounds maxxpos maxzpos p = p) := by
  refine ⟨?_, ?_, ?_⟩
  · simp only [requestPathOuter, clampInBounds_idem]
  · intro hx hz
    refine ⟨le_max_left 0 _, max_le hx (min_le_left _ _),
      le_max_left 0 _, max_le hz (min_le_left _ _), rfl⟩
  · intro h1 h2 h3 h4
    obtain ⟨px, py, pz⟩ := p
    simp only [clampInBounds, float3.mk.injEq]
    exact ⟨by rw [min_eq_right h2, max_eq_right h1], trivial,
      by rw [min_eq_right h4, max_eq_right h3]⟩

/-- Witness for C9: an out-of-bounds request on a map with
`maxxpos = maxzpos = 16` equals the request from the clamped endpoints. -/
theorem requestPath_clamps_start_goal_witness :
    requestPathOuter wOracle 0 16 16 ⟨-5, 0, 20⟩ ⟨40, 0, -3⟩ 0 none ⟨0, []⟩ =
      requestPathOuter wOracle 0 16 16 (clampInBounds 16 16 ⟨-5, 0, 20⟩)
        (clampInBounds 16 16 ⟨40, 0, -3⟩) 0 none ⟨0, []⟩ ∧
    ((0 : ℚ) ≤ 16 → (0 : ℚ) ≤ 16 →
      0 ≤ (clampInBounds 16 16 ⟨-5, 0, 20⟩).x ∧
      (clampInBounds 16 16 ⟨-5, 0, 20⟩).x ≤ 16 ∧
      0 ≤ (clampInBounds 16 16 ⟨-5, 0, 20⟩).z ∧
      (clampInBounds 16 16 ⟨-5, 0, 20⟩).z ≤ 16 ∧
      (clampInBounds 16 16 ⟨-5, 0, 20⟩).y = (0 : ℚ)) :=
  ⟨(requestPath_clamps_start_goal wOracle 0 16 16 ⟨-5, 0, 20⟩ ⟨40, 0, -3⟩
      ⟨-5, 0, 20⟩ 0 none ⟨0, []⟩).1,
    (requestPath_clamps_start_goal wOracle 0 16 16 ⟨-5, 0, 20⟩ ⟨40, 0, -3⟩
      ⟨-5, 0, 20⟩ 0 none ⟨0, []⟩).2.1⟩

/-! ### C6: heat deposits along the fine tier -/

theorem list_sum_range_map (f : Nat → ℚ) (n : Nat) :
    ((List.range n).map f).sum = ∑ j in Finset.range n, f j := by
  induction n with
  | zero => simp
  | succ m ih =>
    rw [List.range_succ, List.map_append, List.sum_append, Finset.sum_range_succ, ih]
    simp

theorem gauss_sum_q (n : Nat) :
    (∑ j in Finset.range n, ((j : ℚ) + 1)) = n * (n + 1) / 2 := by
  induction n with
  | zero => simp
  | succ m ih =>
    rw [Finset.sum_range_succ, ih]
    push_cast
    ring

theorem updatePathHeatAmounts_sum (n : Nat) (heatProduced : ℚ) (hn : n ≠ 0) :
    (updatePathHeatAmounts n heatProduced).sum = heatProduced * (n + 1) / 2 := by
  have hq : (n : ℚ) ≠ 0 := Nat.cast_ne_zero.mpr hn
  unfold updatePathHeatAmounts
  rw [list_sum_range_map, ← Finset.sum_range_reflect]
  have hrw : ∀ j ∈ Finset.range n,
      ((n - (n - 1 - j) : Nat) : ℚ) * (1 / (n : ℚ)) * heatProduced =
        ((j : ℚ) + 1) * ((1 / (n : ℚ)) * heatProduced) := by
    intro j hj
    have hj' := Finset.mem_range.mp hj
    have hnj : (n - (n - 1 - j) : Nat) = j + 1 := by omega
    rw [hnj]
    push_cast
    ring
  rw [Finset.sum_congr rfl hrw, ← Finset.sum_mul, gauss_sum_q]
  field_simp
  ring

theorem updatePathHeatAmounts_get (n j : Nat) (heatProduced : ℚ) (hj : j < n) :
    (updatePathHeatAmounts n heatProduced).get? j =
      some (((n - j : Nat) : ℚ) * (1 / (n : ℚ)) * heatProduced) := by
  unfold updatePathHeatAmounts
  rw [List.get?_map, List.get?_range hj]
  rfl

/-- C6 (amended): `UpdatePath` on a stored record with a non-empty fine tier of
`n` cells deposits, on the cell `j` steps from the path's start, the truncation
of `(n - j) / n * heatProduced` — tapering from the full `heatProduced` at the
start toward the goal — so the deposited amounts sum (before the `int` cast)
to `heatProduced * (n + 1) / 2`, not to `heatProduced`; movement classes that
opt out of heat mapping, and handle 0, deposit nothing. -/
theorem updatePath_heat_taper_and_sum (heatProduced : ℚ) (pathID : Nat) (st : PMState)
    (mp : MultiPath) (h0 : pathID ≠ 0) (hf : pmFind pathID st.pathMap = some mp)
    (hne : mp.maxResPath.squares ≠ []) :
    updatePath true heatProduced pathID st =
      (mp.maxResPath.squares.reverse).zip
        ((updatePathHeatAmounts mp.maxResPath.squares.length heatProduced).map cint) ∧
    (updatePathHeatAmounts mp.maxResPath.squares.length heatProduced).sum =
      heatProduced * (mp.maxResPath.squares.length + 1) / 2 ∧
    (∀ j, j < mp.maxResPath.squares.length →
      (updatePathHeatAmounts mp.maxResPath.squares.length heatProduced).get? j =
        some (((mp.maxResPath.squares.length - j : Nat) : ℚ) *
          (1 / (mp.maxResPath.squares.length : ℚ)) * heatProduced)) ∧
    updatePath false heatProduced pathID st = [] ∧
    updatePath true heatProduced 0 st = [] := by
  have hlen : mp.maxResPath.squares.length ≠ 0 := by
    intro h
    exact hne (List.length_eq_zero.mp h)
  refine ⟨?_, updatePathHeatAmounts_sum _ _ hlen,
    fun j hj => updatePathHeatAmounts_get _ j _ hj, ?_, ?_⟩
  · unfold updatePath getDetailedPathSquares
    rw [if_neg h0, hf]
    have hemp : mp.maxResPath.squares.reverse.isEmpty = false := by
      cases hsq : mp.maxResPath.squares.reverse with
      | nil => exact absurd (by simpa using hsq) hne
      | cons a l => rfl
    simp [hemp]
  · unfold updatePath
    rw [if_neg h0]
    rfl
  · rfl

/-- The record used by the C6 counterexample and witness: a stored record
whose fine tier traverses exactly two grid squares. -/
def heatMultiPath : MultiPath :=
  ⟨SearchResult.Ok, ⟨99, 0, 99⟩, none,
    ⟨[⟨12, 0, 12⟩, ⟨4, 0, 4⟩], [⟨0, 0⟩, ⟨1, 1⟩], ⟨12, 0, 12⟩⟩,
    emptyIPath, emptyIPath, false⟩

/-- A one-record registry holding `heatMultiPath` under handle 1. -/
def heatState : PMState := ⟨1, [(1, heatMultiPath)]⟩

/-- Counterexample to C6 as stated: with `heatProduced = 2` over a 2-cell fine
tier, the deposited heat values are 2 and 1, summing to 3 ≠ 2 — the total is
`heatProduced * (N + 1) / 2`, not `heatProduced` (far beyond floating-point
tolerance). -/
theorem updatePath_heat_sum_exceeds_produced :
    updatePath true 2 1 heatState = [(⟨1, 1⟩, 2), (⟨0, 0⟩, 1)] ∧
    ((updatePath true 2 1 heatState).map (fun d => (d.2 : ℚ))).sum = 3 ∧
    (updatePathHeatAmounts 2 2).sum = 3 ∧
    (3 : ℚ) ≠ 2 := by
  have hamt : updatePathHeatAmounts 2 2 = [2, 1] := by
    unfold updatePathHeatAmounts
    norm_num [List.range_succ]
  have h2 : cint 2 = 2 := by
    unfold cint
    norm_num
  have h1 : cint 1 = 1 := by
    unfold cint
    norm_num
  have hup : updatePath true 2 1 heatState = [(⟨1, 1⟩, 2), (⟨0, 0⟩, 1)] := by
    unfold updatePath getDetailedPathSquares heatState
    simp [pmFind, heatMultiPath, hamt, h1, h2]
  refine ⟨hup, by rw [hup]; norm_num, by rw [hamt]; norm_num, by norm_num⟩

/-- Witness for C6 (amended) at `heatState`, handle 1, `heatProduced = 2`. -/
theorem updatePath_heat_taper_and_sum_witness :
    (1 : Nat) ≠ 0 ∧ pmFind 1 heatState.pathMap = some heatMultiPath ∧
    heatMultiPath.maxResPath.squares ≠ [] ∧
    ((updatePathHeatAmounts heatMultiPath.maxResPath.squares.length 2).sum =
      2 * (heatMultiPath.maxResPath.squares.length + 1) / 2 ∧
     updatePath false 2 1 heatState = []) :=
  ⟨by decide, by decide, by decide,
    ⟨(updatePath_heat_taper_and_sum 2 1 heatState heatMultiPath (by decide) (by decide)
        (by decide)).2.1,
      (updatePath_heat_taper_and_sum 2 1 heatState heatMultiPath (by decide) (by decide)
        (by decide)).2.2.2.1⟩⟩

/-! ### C2: Error aborts, non-Error stores -/

/-- C2 (amended): on an `Error` outcome `RequestPath` returns handle 0 and
leaves the registry untouched; on a non-`Error` outcome the record is inserted
under the handle `(nextPathID + 1) % 2^32` which is returned, and that handle
is non-zero and absent from the previous registry provided fewer than `2^32`
handles have been issued (the 32-bit counter has not wrapped). -/
theorem requestPath_error_vs_store (oracle : SearchOracle) (k : Nat)
    (goalDist2D sqGoalRadius : ℚ) (startPos goalPos : float3) (caller : Option Nat)
    (st : PMState) (out : RPOut)
    (hout : requestPathCore oracle k goalDist2D sqGoalRadius startPos goalPos caller st = out) :
    (out.result = SearchResult.Error → out.pathID = 0 ∧ out.st = st) ∧
    (out.result ≠ SearchResult.Error →
      out.pathID = (st.nextPathID + 1) % uintCard ∧
      out.st.nextPathID = out.pathID ∧
      (∃ r, pmFind out.pathID out.st.pathMap = some r ∧ r.searchResult = out.result) ∧
      (st.nextPathID + 1 < uintCard → out.pathID ≠ 0) ∧
      ((∀ p ∈ st.pathMap, p.1 ≤ st.nextPathID) → st.nextPathID + 1 < uintCard →
        pmFind out.pathID st.pathMap = none)) := by
  subst hout
  simp only [requestPathCore, store]
  by_cases hb : (bandSearch oracle k goalDist2D sqGoalRadius startPos goalPos
      (initMultiPath goalPos caller)).result = SearchResult.Error
  · rw [if_neg (fun h => h hb)]
    exact ⟨fun _ => ⟨rfl, rfl⟩, fun h => absurd hb h⟩
  · rw [if_pos hb]
    refine ⟨fun h => absurd h hb, fun _ => ⟨rfl, rfl, ⟨_, pmFind_pmInsert_self _ _ _, rfl⟩,
      ?_, ?_⟩⟩
    · intro hlt
      show (st.nextPathID + 1) % uintCard ≠ 0
      rw [Nat.mod_eq_of_lt hlt]
      omega
    · intro hkeys hlt
      show pmFind ((st.nextPathID + 1) % uintCard) st.pathMap = none
      apply pmFind_eq_none_of_keys_ne
      intro p hp
      have := hkeys p hp
      rw [Nat.mod_eq_of_lt hlt]
      omega

/-- Witness for C2: a short-band request whose fine search succeeds, from a
fresh registry. -/
theorem requestPath_error_vs_store_witness :
    (requestPathCore wOracle 0 0 0 ⟨8, 0, 8⟩ ⟨16, 0, 16⟩ none ⟨0, []⟩).result ≠
      SearchResult.Error ∧
    (requestPathCore wOracle 0 0 0 ⟨8, 0, 8⟩ ⟨16, 0, 16⟩ none ⟨0, []⟩).pathID =
      (0 + 1) % uintCard ∧
    (∃ r, pmFind (requestPathCore wOracle 0 0 0 ⟨8, 0, 8⟩ ⟨16, 0, 16⟩ none ⟨0, []⟩).pathID
      (requestPathCore wOracle 0 0 0 ⟨8, 0, 8⟩ ⟨16, 0, 16⟩ none ⟨0, []⟩).st.pathMap = some r ∧
      r.searchResult =
        (requestPathCore wOracle 0 0 0 ⟨8, 0, 8⟩ ⟨16, 0, 16⟩ none ⟨0, []⟩).result) := by
  have h := requestPath_error_vs_store wOracle 0 0 0 ⟨8, 0, 8⟩ ⟨16, 0, 16⟩ none ⟨0, []⟩ _ rfl
  have hne : (requestPathCore wOracle 0 0 0 ⟨8, 0, 8⟩ ⟨16, 0, 16⟩ none ⟨0, []⟩).result ≠
      SearchResult.Error := by decide
  exact ⟨hne, ((h.2 hne).1), ((h.2 hne).2.2.1)⟩

/-- Counterexample to C2 as stated: from a registry whose 32-bit handle
counter sits at `2^32 - 1`, a successful (`Ok`) request wraps the counter and
returns handle 0, violating "non-zero handle" on a non-`Error` outcome. -/
theorem requestPath_handle_wraps_to_zero :
    (requestPathCore wOracle 0 0 0 ⟨8, 0, 8⟩ ⟨16, 0, 16⟩ none
      ⟨uintCard - 1, []⟩).result = SearchResult.Ok ∧
    (requestPathCore wOracle 0 0 0 ⟨8, 0, 8⟩ ⟨16, 0, 16⟩ none
      ⟨uintCard - 1, []⟩).pathID = 0 := by
  constructor <;> decide

/-! ### C3: handle issuing and reuse -/

theorem storeSeq_handles (mp : MultiPath) : ∀ (n : Nat) (st : PMState),
    (storeSeq mp n st).1 =
      (List.range n).map (fun j => (st.nextPathID + 1 + j) % uintCard) := by
  intro n
  induction n with
  | zero => intro st; rfl
  | succ m ih =>
    intro st
    show (store mp st).1 :: (storeSeq mp m (store mp st).2).1 = _
    rw [ih ((store mp st).2), List.range_succ_eq_map, List.map_cons, List.map_map]
    simp only [store]
    congr 1
    apply List.map_congr_left
    intro j hj
    show ((st.nextPathID + 1) % uintCard + 1 + j) % uintCard = _
    rw [Nat.add_assoc, Nat.mod_add_mod]
    simp only [Function.comp]
    exact congrArg (· % uintCard) (by omega)

/-- C3 (amended): `Store` returns the counter incremented by one *modulo
`2^32`* (the counter is a C `unsigned int`); while fewer than `2^32` handles
have been issued, sequential stores yield pairwise-distinct non-zero handles,
and `DeletePath` never touches the counter, so freed handle values are not
re-issued below the wrap; after `2^32` issues the counter wraps and handle
values repeat. -/
theorem store_handles_distinct_below_wrap (mp : MultiPath) (st : PMState) (n pid : Nat)
    (h : st.nextPathID + n < uintCard) :
    (storeSeq mp n st).1 = (List.range n).map (fun j => st.nextPathID + 1 + j) ∧
    ((storeSeq mp n st).1).Nodup ∧
    (∀ i ∈ (storeSeq mp n st).1, i ≠ 0) ∧
    (store mp st).1 = (st.nextPathID + 1) % uintCard ∧
    (deletePath pid st).nextPathID = st.nextPathID := by
  have hseq : (storeSeq mp n st).1 = (List.range n).map (fun j => st.nextPathID + 1 + j) := by
    rw [storeSeq_handles mp n st]
    apply List.map_congr_left
    intro j hj
    have hj' := List.mem_range.mp hj
    exact Nat.mod_eq_of_lt (by omega)
  refine ⟨hseq, ?_, ?_, rfl, ?_⟩
  · rw [hseq]
    exact (List.nodup_range n).map (fun a b hab => by omega)
  · intro i hi
    rw [hseq] at hi
    obtain ⟨j, hj, rfl⟩ := List.mem_map.mp hi
    omega
  · unfold deletePath
    split
    · rfl
    · split <;> rfl

/-- Witness for C3 at a fresh registry and three stores. -/
theorem store_handles_distinct_below_wrap_witness :
    (0 : Nat) + 3 < uintCard ∧
    ((storeSeq wMultiPath 3 ⟨0, []⟩).1 =
        (List.range 3).map (fun j => 0 + 1 + j) ∧
      ((storeSeq wMultiPath 3 ⟨0, []⟩).1).Nodup ∧
      (∀ i ∈ (storeSeq wMultiPath 3 ⟨0, []⟩).1, i ≠ 0) ∧
      (store wMultiPath ⟨0, []⟩).1 = (0 + 1) % uintCard ∧
      (deletePath 5 (⟨0, []⟩ : PMState)).nextPathID = 0) :=
  ⟨by decide,
    store_handles_distinct_below_wrap wMultiPath ⟨0, []⟩ 3 5 (by decide)⟩

/-- Counterexample to C3 as stated: after `2^32 + 1` sequential stores from a
fresh registry, the first and the last issued handles are both 1 — the
`unsigned int` counter wrapped and a handle value was reused within the
process lifetime. -/
theorem store_handle_reuse_after_wrap :
    ((storeSeq wMultiPath (uintCard + 1) ⟨0, []⟩).1).get? 0 = some 1 ∧
    ((storeSeq wMultiPath (uintCard + 1) ⟨0, []⟩).1).get? uintCard = some 1 ∧
    (0 : Nat) ≠ uintCard := by
  have hseq := storeSeq_handles wMultiPath (uintCard + 1) ⟨0, []⟩
  refine ⟨?_, ?_, by decide⟩
  · rw [hseq, List.get?_map, List.get?_range (by omega : 0 < uintCard + 1)]
    decide
  · rw [hseq, List.get?_map, List.get?_range (by omega : uintCard < uintCard + 1)]
    show some ((0 + 1 + uintCard) % uintCard) = some 1
    rw [Nat.zero_add, Nat.add_mod_right]
    decide

/-! ### C1: the CantGetCloser dummy waypoint -/

theorem list_isEmpty_true_iff {α : Type _} (l : List α) : l.isEmpty = true ↔ l = [] := by
  cases l <;> simp

/-- C1 (amended): on a `CantGetCloser` outcome the stored record's fine tier
is never empty: when the searches left it empty, a single synthetic waypoint
equal to the start position, with its grid square, is appended before the
record is stored.  (Stored records with other non-`Ok` outcomes, e.g.
`GoalOutOfRange`, may be entirely empty.) -/
theorem requestPath_cantGetCloser_fine_tier_nonempty (oracle : SearchOracle) (k : Nat)
    (goalDist2D sqGoalRadius : ℚ) (startPos goalPos : float3) (caller : Option Nat)
    (st : PMState) (b : BandAcc)
    (hb : bandSearch oracle k goalDist2D sqGoalRadius startPos goalPos
      (initMultiPath goalPos caller) = b)
    (hres : b.result = SearchResult.CantGetCloser) :
    ∃ r, pmFind (requestPathCore oracle k goalDist2D sqGoalRadius startPos goalPos caller
        st).pathID
        (requestPathCore oracle k goalDist2D sqGoalRadius startPos goalPos caller st).st.pathMap
        = some r ∧
      r.searchResult = SearchResult.CantGetCloser ∧
      r.maxResPath.path ≠ [] ∧
      (b.mp.maxResPath.path = [] →
        r.maxResPath.path = [startPos] ∧
        r.maxResPath.squares = b.mp.maxResPath.squares ++
          [⟨cint (startPos.x / SQUARE_SIZE), cint (startPos.z / SQUARE_SIZE)⟩]) := by
  simp only [requestPathCore, store, hb]
  rw [if_pos (show b.result ≠ SearchResult.Error from hres ▸ (by decide))]
  rw [if_neg (show ¬b.result ≠ SearchResult.CantGetCloser from fun h => h hres)]
  refine ⟨_, pmFind_pmInsert_self _ _ _, hres, ?_, ?_⟩
  · show (if b.mp.maxResPath.path.isEmpty then _ else b.mp).maxResPath.path ≠ []
    by_cases hemp : b.mp.maxResPath.path.isEmpty = true
    · rw [if_pos hemp]
      simp
    · rw [if_neg hemp]
      intro hnil
      exact hemp ((list_isEmpty_true_iff _).mpr hnil)
  · intro hp
    have hemp : b.mp.maxResPath.path.isEmpty = true := (list_isEmpty_true_iff _).mpr hp
    show (if b.mp.maxResPath.path.isEmpty then _ else b.mp).maxResPath.path = _ ∧
      (if b.mp.maxResPath.path.isEmpty then _ else b.mp).maxResPath.squares = _
    rw [if_pos hemp]
    exact ⟨by simp [hp], rfl⟩

/-- A search oracle whose every call fails with `CantGetCloser` and an empty
path. -/
def cgcOracle : SearchOracle := fun _ => (SearchResult.CantGetCloser, emptyIPath)

/-- Witness for C1: a short-band request whose three searches all return
`CantGetCloser` with empty paths, so the dummy start waypoint is installed. -/
theorem requestPath_cantGetCloser_fine_tier_nonempty_witness :
    bandSearch cgcOracle 0 0 0 ⟨8, 0, 8⟩ ⟨8, 0, 8⟩ (initMultiPath ⟨8, 0, 8⟩ none) =
      bandSearch cgcOracle 0 0 0 ⟨8, 0, 8⟩ ⟨8, 0, 8⟩ (initMultiPath ⟨8, 0, 8⟩ none) ∧
    (bandSearch cgcOracle 0 0 0 ⟨8, 0, 8⟩ ⟨8, 0, 8⟩ (initMultiPath ⟨8, 0, 8⟩ none)).result =
      SearchResult.CantGetCloser ∧
    ∃ r, pmFind (requestPathCore cgcOracle 0 0 0 ⟨8, 0, 8⟩ ⟨8, 0, 8⟩ none ⟨0, []⟩).pathID
        (requestPathCore cgcOracle 0 0 0 ⟨8, 0, 8⟩ ⟨8, 0, 8⟩ none ⟨0, []⟩).st.pathMap = some r ∧
      r.searchResult = SearchResult.CantGetCloser ∧
      r.maxResPath.path ≠ [] ∧
      ((bandSearch cgcOracle 0 0 0 ⟨8, 0, 8⟩ ⟨8, 0, 8⟩
          (initMultiPath ⟨8, 0, 8⟩ none)).mp.maxResPath.path = [] →
        r.maxResPath.path = [⟨8, 0, 8⟩] ∧
        r.maxResPath.squares = (bandSearch cgcOracle 0 0 0 ⟨8, 0, 8⟩ ⟨8, 0, 8⟩
            (initMultiPath ⟨8, 0, 8⟩ none)).mp.maxResPath.squares ++
          [⟨cint ((8 : ℚ) / SQUARE_SIZE), cint ((8 : ℚ) / SQUARE_SIZE)⟩] ) :=
  ⟨rfl, by decide,
    requestPath_cantGetCloser_fine_tier_nonempty cgcOracle 0 0 0 ⟨8, 0, 8⟩ ⟨8, 0, 8⟩ none
      ⟨0, []⟩ _ rfl (by decide)⟩

/-- A search oracle whose every call fails with `GoalOutOfRange` and an empty
path. -/
def gorOracle : SearchOracle := fun _ => (SearchResult.GoalOutOfRange, emptyIPath)

/-- The record stored by the counterexample request below. -/
def gorRecord : MultiPath :=
  ⟨SearchResult.GoalOutOfRange, ⟨16, 0, 16⟩, none, emptyIPath, emptyIPath, emptyIPath, true⟩

/-- Counterexample to C1's generalization ("any stored record whose outcome is
not Ok contains at least one waypoint"): a medium-band request whose searches
all return `GoalOutOfRange` stores a record with *no* waypoint in any tier. -/
theorem requestPath_goalOutOfRange_empty_record :
    (requestPathCore gorOracle 0 30 0 ⟨8, 0, 8⟩ ⟨16, 0, 16⟩ none ⟨0, []⟩).pathID = 1 ∧
    pmFind 1 (requestPathCore gorOracle 0 30 0 ⟨8, 0, 8⟩ ⟨16, 0, 16⟩ none
      ⟨0, []⟩).st.pathMap = some gorRecord ∧
    gorRecord.searchResult ≠ SearchResult.Ok ∧
    gorRecord.maxResPath.path = [] ∧
    gorRecord.medResPath.path = [] ∧
    gorRecord.lowResPath.path = [] := by
  refine ⟨by decide, by decide, by decide, rfl, rfl, rfl⟩

/-! ### C5: the medium-band cascade -/

theorem exists_append_rest {α : Type _} (A B C D : List α) :
    ∃ rest, A ++ B ++ C ++ D = A ++ B ++ rest :=
  ⟨C ++ D, by simp [List.append_assoc]⟩

/-- C5: in the medium band (`DETAILED_DISTANCE ≤ goalDist2D <
ESTIMATE_DISTANCE`) the tier-selection phase consists of: the
medium-resolution estimator first; the fine search engine only if that
returned `CantGetCloser` with the squared planar start-goal distance above
the squared goal radius; and, if the outcome so far is still not `Ok`, one
final medium-resolution retry with the goal constraint disabled.  These
events begin the request's trace right after the caller's unblock. -/
theorem requestPath_medium_band_search_order (oracle : SearchOracle) (k : Nat)
    (goalDist2D sqGoalRadius : ℚ) (startPos goalPos : float3) (caller : Option Nat)
    (st : PMState) (h1 : DETAILED_DISTANCE ≤ goalDist2D)
    (h2 : goalDist2D < ESTIMATE_DISTANCE) :
    (∃ rest, (requestPathCore oracle k goalDist2D sqGoalRadius startPos goalPos caller
        st).events =
      (if caller.isSome then [PMEvent.unblock] else []) ++
        (bandSearch oracle k goalDist2D sqGoalRadius startPos goalPos
          (initMultiPath goalPos caller)).events ++ rest) ∧
    (bandSearch oracle k goalDist2D sqGoalRadius startPos goalPos
        (initMultiPath goalPos caller)).events =
      [PMEvent.search Engine.medResPE false] ++
        (if (oracle k).1 = SearchResult.CantGetCloser ∧
            sqLength2D (f3sub startPos goalPos) > sqGoalRadius then
          [PMEvent.search Engine.maxResPF false] else []) ++
        (if (if (oracle k).1 = SearchResult.CantGetCloser ∧
              sqLength2D (f3sub startPos goalPos) > sqGoalRadius then
            (oracle (k + 1)).1 else (oracle k).1) ≠ SearchResult.Ok then
          [PMEvent.search Engine.medResPE true] else []) := by
  constructor
  · simp only [requestPathCore]
    generalize bandSearch oracle k goalDist2D sqGoalRadius startPos goalPos
      (initMultiPath goalPos caller) = b
    by_cases hbe : b.result = SearchResult.Error
    · rw [if_neg (fun h => h hbe)]
      exact ⟨_, rfl⟩
    · rw [if_pos hbe]
      exact exists_append_rest _ _ _ _
  · simp only [bandSearch]
    rw [if_neg (not_lt.mpr h1), if_pos h2]
    by_cases hc1 : (oracle k).1 = SearchResult.CantGetCloser ∧
        sqLength2D (f3sub startPos goalPos) > sqGoalRadius
    · rw [if_pos hc1, if_pos hc1, if_pos hc1]
      by_cases hc2 : (oracle (k + 1)).1 ≠ SearchResult.Ok
      · rw [if_pos hc2, if_pos hc2]
      · rw [if_neg hc2, if_neg hc2]
        simp
    · rw [if_neg hc1, if_neg hc1, if_neg hc1]
      by_cases hc2 : (oracle k).1 ≠ SearchResult.Ok
      · rw [if_pos hc2, if_pos hc2]
        simp
      · rw [if_neg hc2, if_neg hc2]
        simp

/-- Witness for C5: a medium-band (`goalDist2D = 30`) request where the
medium estimator reports `CantGetCloser` far from the goal, so all three
cascade steps run. -/
theorem requestPath_medium_band_search_order_witness :
    DETAILED_DISTANCE ≤ (30 : ℚ) ∧ (30 : ℚ) < ESTIMATE_DISTANCE ∧
    (∃ rest, (requestPathCore cgcOracle 0 30 0 ⟨8, 0, 8⟩ ⟨16, 0, 16⟩ (some 3)
        ⟨0, []⟩).events =
      (if (some 3 : Option Nat).isSome then [PMEvent.unblock] else []) ++
        (bandSearch cgcOracle 0 30 0 ⟨8, 0, 8⟩ ⟨16, 0, 16⟩
          (initMultiPath ⟨16, 0, 16⟩ (some 3))).events ++ rest) :=
  ⟨by decide, by decide,
    (requestPath_medium_band_search_order cgcOracle 0 30 0 ⟨8, 0, 8⟩ ⟨16, 0, 16⟩ (some 3)
      ⟨0, []⟩ (by decide) (by decide)).1⟩

/-! ### C8: the unblock/reblock discipline around NextWayPoint refinement -/

theorem lowRes2MedRes_caller (oracle : SearchOracle) (k : Nat) (mp : MultiPath)
    (cp : float3) : (lowRes2MedRes oracle k mp cp).1.caller = mp.caller := by
  unfold lowRes2MedRes
  split <;> rfl

theorem medRes2MaxRes_caller (oracle : SearchOracle) (k : Nat) (mp : MultiPath)
    (cp : float3) : (medRes2MaxRes oracle k mp cp).1.caller = mp.caller := by
  unfold medRes2MaxRes
  split <;> rfl

theorem lowRes2MedRes_events_count (oracle : SearchOracle) (k : Nat) (mp : MultiPath)
    (cp : float3) :
    ((lowRes2MedRes oracle k mp cp).2.2).count PMEvent.unblock = 0 ∧
    ((lowRes2MedRes oracle k mp cp).2.2).count PMEvent.block = 0 := by
  unfold lowRes2MedRes
  split
  · exact ⟨rfl, rfl⟩
  · exact ⟨rfl, rfl⟩

theorem medRes2MaxRes_events_count (oracle : SearchOracle) (k : Nat) (mp : MultiPath)
    (cp : float3) :
    ((medRes2MaxRes oracle k mp cp).2.2).count PMEvent.unblock = 0 ∧
    ((medRes2MaxRes oracle k mp cp).2.2).count PMEvent.block = 0 := by
  unfold medRes2MaxRes
  split
  · exact ⟨rfl, rfl⟩
  · exact ⟨rfl, rfl⟩

theorem nwpRefine_balance (oracle : SearchOracle) (k : Nat) (mp : MultiPath) (cp : float3) :
    ((nwpRefine oracle k mp cp).2.2).count PMEvent.unblock =
      ((nwpRefine oracle k mp cp).2.2).count PMEvent.block := by
  unfold nwpRefine
  split
  · set l1 := if lowNeedsRefine mp cp then lowRes2MedRes oracle k mp cp else (mp, k, [])
      with hl1
    have hl1c : l1.1.caller = mp.caller := by
      rw [hl1]
      split
      · exact lowRes2MedRes_caller oracle k mp cp
      · rfl
    have hl1e : (l1.2.2).count PMEvent.unblock = 0 ∧ (l1.2.2).count PMEvent.block = 0 := by
      rw [hl1]
      split
      · exact lowRes2MedRes_events_count oracle k mp cp
      · exact ⟨rfl, rfl⟩
    have hl2c : (medRes2MaxRes oracle l1.2.1 l1.1 cp).1.caller = mp.caller := by
      rw [medRes2MaxRes_caller]
      exact hl1c
    have hl2e := medRes2MaxRes_events_count oracle l1.2.1 l1.1 cp
    simp only [List.count_append, hl1e.1, hl1e.2, hl2e.1, hl2e.2, hl1c, hl2c]
    by_cases hm : mp.caller.isSome = true
    · simp [hm]
    · simp [hm]
  · rfl

theorem nwpAux_balance (oracle : SearchOracle) : ∀ (fuel : Nat) (st : PMState)
    (k pathID : Nat) (cp : float3) (md : ℚ) (nr : Nat),
    ((nextWayPointAux oracle fuel st k pathID cp md nr).events).count PMEvent.unblock =
      ((nextWayPointAux oracle fuel st k pathID cp md nr).events).count PMEvent.block := by
  intro fuel
  induction fuel with
  | zero => intros; rfl
  | succ f ih =>
    intro st k pathID cp md nr
    simp only [nextWayPointAux]
    repeat' split
    all_goals
      first
        | rfl
        | exact nwpRefine_balance oracle k _ _
        | simp only [List.count_append, nwpRefine_balance, ih]

theorem lowRes2MedRes_events_eq (oracle : SearchOracle) (k : Nat) (mp : MultiPath)
    (cp : float3) :
    (lowRes2MedRes oracle k mp cp).2.2 =
      if mp.lowResPath.path.isEmpty then [] else
        [PMEvent.search Engine.medResPE
          (if (trimTail cp ((ESTIMATE_DISTANCE * SQUARE_SIZE) ^ 2)
              mp.lowResPath.path.dropLast).isEmpty then mp.constraintDisabled else false)] := by
  unfold lowRes2MedRes
  by_cases h : mp.lowResPath.path.isEmpty = true
  · rw [if_pos h, if_pos h]
  · rw [if_neg h, if_neg h]

theorem medRes2MaxRes_events_eq (oracle : SearchOracle) (k : Nat) (mp : MultiPath)
    (cp : float3) :
    (medRes2MaxRes oracle k mp cp).2.2 =
      if mp.medResPath.path.isEmpty then [] else
        [PMEvent.search Engine.maxResPF
          (if (trimTail cp ((DETAILED_DISTANCE * SQUARE_SIZE) ^ 2)
                mp.medResPath.path.dropLast).isEmpty && mp.lowResPath.path.isEmpty then
            mp.constraintDisabled else false)] := by
  unfold medRes2MaxRes
  by_cases h : mp.medResPath.path.isEmpty = true
  · rw [if_pos h, if_pos h]
  · rw [if_neg h, if_neg h]

theorem nwpRefine_events_eq (oracle : SearchOracle) (k : Nat) (mp : MultiPath)
    (cp : float3) (hmed : medNeedsRefine mp cp = true) :
    (nwpRefine oracle k mp cp).2.2 =
      (if lowNeedsRefine mp cp then (lowRes2MedRes oracle k mp cp).2.2 else []) ++
        (if mp.caller.isSome then [PMEvent.unblock] else []) ++
        (medRes2MaxRes oracle
          (if lowNeedsRefine mp cp then lowRes2MedRes oracle k mp cp else (mp, k, [])).2.1
          (if lowNeedsRefine mp cp then lowRes2MedRes oracle k mp cp else (mp, k, [])).1
          cp).2.2 ++
        (if mp.caller.isSome then [PMEvent.block] else []) := by
  unfold nwpRefine
  rw [if_pos hmed]
  by_cases hlow : lowNeedsRefine mp cp = true
  · simp only [if_pos hlow, lowRes2MedRes_caller, medRes2MaxRes_caller]
  · simp only [if_neg hlow, lowRes2MedRes_caller, medRes2MaxRes_caller]

/-- C8 (amended): in `NextWayPoint`, only the medium-to-fine refinement search
is bracketed by the unblock/reblock of the record's caller; when the
coarse-to-medium refinement triggers, its search runs *before* the unblock,
while the caller is still blocked.  The caller's block state is nevertheless
net-unchanged: every trace contains as many unblocks as blocks. -/
theorem nextWayPoint_unblock_brackets_medres_refine (oracle : SearchOracle) (st : PMState)
    (k pathID : Nat) (callerPos : float3) (minDistance : ℚ) (numRetries : Nat)
    (mp : MultiPath) (hmed : medNeedsRefine mp callerPos = true)
    (hcall : mp.caller.isSome = true) :
    ((nextWayPoint oracle st k pathID callerPos minDistance numRetries).events).count
        PMEvent.unblock =
      ((nextWayPoint oracle st k pathID callerPos minDistance numRetries).events).count
        PMEvent.block ∧
    ∃ cpre cmid,
      (nwpRefine oracle k mp callerPos).2.2 =
        (if lowNeedsRefine mp callerPos then
            [PMEvent.search Engine.medResPE cpre] else []) ++
          [PMEvent.unblock] ++
          (if (if lowNeedsRefine mp callerPos then
                (lowRes2MedRes oracle k mp callerPos).1
              else mp).medResPath.path.isEmpty then ([] : List PMEvent)
            else [PMEvent.search Engine.maxResPF cmid]) ++
          [PMEvent.block] := by
  refine ⟨nwpAux_balance oracle 6 st k pathID callerPos minDistance numRetries, ?_⟩
  rw [nwpRefine_events_eq oracle k mp callerPos hmed]
  by_cases hlow : lowNeedsRefine mp callerPos = true
  · have hne : mp.lowResPath.path.isEmpty = false := by
      cases hk : mp.lowResPath.path.isEmpty
      · rfl
      · exfalso
        unfold lowNeedsRefine at hlow
        rw [hk] at hlow
        simp at hlow
    refine ⟨if (trimTail callerPos ((ESTIMATE_DISTANCE * SQUARE_SIZE) ^ 2)
        mp.lowResPath.path.dropLast).isEmpty then mp.constraintDisabled else false,
      if (trimTail callerPos ((DETAILED_DISTANCE * SQUARE_SIZE) ^ 2)
            (lowRes2MedRes oracle k mp callerPos).1.medResPath.path.dropLast).isEmpty &&
          (lowRes2MedRes oracle k mp callerPos).1.lowResPath.path.isEmpty then
        (lowRes2MedRes oracle k mp callerPos).1.constraintDisabled else false, ?_⟩
    simp only [if_pos hlow, hcall, if_true, lowRes2MedRes_events_eq,
      medRes2MaxRes_events_eq, hne, if_false, Bool.false_eq_true]
  · refine ⟨mp.constraintDisabled,
      if (trimTail callerPos ((DETAILED_DISTANCE * SQUARE_SIZE) ^ 2)
            mp.medResPath.path.dropLast).isEmpty && mp.lowResPath.path.isEmpty then
        mp.constraintDisabled else false, ?_⟩
    simp only [if_neg hlow, hcall, if_true, medRes2MaxRes_events_eq]

/-- The fixed path returned by every `wOracle` search. -/
def wPath : Path := ⟨[⟨50, 0, 50⟩], [⟨6, 6⟩], ⟨50, 0, 50⟩⟩

/-- A stored record with one waypoint in each tier and a present caller, whose
fine and medium tiers are short enough to trigger both refinement steps. -/
def cx8mp : MultiPath :=
  ⟨SearchResult.Ok, ⟨99, 0, 99⟩, some 7,
    ⟨[⟨1, 0, 1⟩], [], ⟨0, 0, 0⟩⟩, ⟨[⟨2, 0, 2⟩], [], ⟨0, 0, 0⟩⟩,
    ⟨[⟨3, 0, 3⟩], [], ⟨0, 0, 0⟩⟩, false⟩

/-- A one-record registry holding `cx8mp` under handle 1. -/
def cx8state : PMState := ⟨1, [(1, cx8mp)]⟩

/-- `cx8mp` after its coarse-to-medium refinement step. -/
def cx8mp1 : MultiPath :=
  ⟨SearchResult.Ok, ⟨99, 0, 99⟩, some 7,
    ⟨[⟨1, 0, 1⟩], [], ⟨0, 0, 0⟩⟩, wPath, ⟨[], [], ⟨0, 0, 0⟩⟩, false⟩

/-- `cx8mp` after both refinement steps. -/
def cx8mp2 : MultiPath :=
  ⟨SearchResult.Ok, ⟨99, 0, 99⟩, some 7,
    wPath, ⟨[], [⟨6, 6⟩], ⟨50, 0, 50⟩⟩, ⟨[], [], ⟨0, 0, 0⟩⟩, false⟩

theorem cx8_medNeeds : medNeedsRefine cx8mp ⟨100, 0, 100⟩ = true := by
  norm_num [medNeedsRefine, cx8mp, sqDist2D, SQUARE_SIZE, MIN_DETAILED_DISTANCE]

theorem cx8_lowNeeds : lowNeedsRefine cx8mp ⟨100, 0, 100⟩ = true := by
  norm_num [lowNeedsRefine, cx8mp, sqDist2D, SQUARE_SIZE, MIN_ESTIMATE_DISTANCE]

theorem cx8_refine : nwpRefine wOracle 0 cx8mp ⟨100, 0, 100⟩ =
    (cx8mp2, 2, [PMEvent.search Engine.medResPE false, PMEvent.unblock,
      PMEvent.search Engine.maxResPF false, PMEvent.block]) := by
  unfold nwpRefine
  rw [if_pos cx8_medNeeds, if_pos cx8_lowNeeds]
  decide

/-- Counterexample to C8 as stated: a `NextWayPoint` call in which both
refinement steps trigger emits, with the caller present, the coarse-to-medium
search event *before* the unblock event — the caller is still blocked while
that refinement search runs. -/
theorem nextWayPoint_lowres_refine_before_unblock :
    cx8mp.caller.isSome = true ∧
    (nextWayPoint wOracle cx8state 0 1 ⟨100, 0, 100⟩ 0 0).events =
      [PMEvent.search Engine.medResPE false, PMEvent.unblock,
        PMEvent.search Engine.maxResPF false, PMEvent.block] := by
  refine ⟨rfl, ?_⟩
  have hz : ¬((⟨100, 0, 100⟩ : float3) = ZeroVector) := by decide
  have hpl : popLoop ⟨100, 0, 100⟩ 0 ⟨50, 0, 50⟩ [⟨(50 : ℚ), 0, 50⟩] =
      some (⟨50, 0, 50⟩, []) := by
    norm_num [popLoop, popLoopRev, sqDist2D]
  show (nextWayPointAux wOracle (5 + 1) cx8state 0 1 ⟨100, 0, 100⟩ 0 0).events = _
  simp only [nextWayPointAux]
  norm_num [pmFind, cx8state, hz, cx8_refine, cx8mp2, wPath, hpl]

/-- Witness for C8 (amended) at the same concrete refinement scenario. -/
theorem nextWayPoint_unblock_brackets_medres_refine_witness :
    medNeedsRefine cx8mp ⟨100, 0, 100⟩ = true ∧
    cx8mp.caller.isSome = true ∧
    (((nextWayPoint wOracle cx8state 0 1 ⟨100, 0, 100⟩ 0 0).events).count PMEvent.unblock =
        ((nextWayPoint wOracle cx8state 0 1 ⟨100, 0, 100⟩ 0 0).events).count PMEvent.block ∧
      ∃ cpre cmid,
        (nwpRefine wOracle 0 cx8mp ⟨100, 0, 100⟩).2.2 =
          (if lowNeedsRefine cx8mp ⟨100, 0, 100⟩ then
              [PMEvent.search Engine.medResPE cpre] else []) ++
            [PMEvent.unblock] ++
            (if (if lowNeedsRefine cx8mp ⟨100, 0, 100⟩ then
                  (lowRes2MedRes wOracle 0 cx8mp ⟨100, 0, 100⟩).1
                else cx8mp).medResPath.path.isEmpty then ([] : List PMEvent)
              else [PMEvent.search Engine.maxResPF cmid]) ++
            [PMEvent.block]) :=
  ⟨cx8_medNeeds, rfl,
    nextWayPoint_unblock_brackets_medres_refine wOracle cx8state 0 1 ⟨100, 0, 100⟩ 0 0
      cx8mp cx8_medNeeds rfl⟩

end Spring
